import Mathlib

/-!
Shallow embedding of the `vroom` request-dispatch layer, covering the
initialization code of the packages `auth` (src/auth/initialize.go),
`api_http` (src/api_http/initialize.go) and `api_ws`
(src/unnamed/part_000), together with the external collaborators and
missing repository functions they call, which are modelled from the spec
where so marked.

Go package-level variables are modelled by explicit state records that
every initialization function threads through; a Go `error` result is an
`Option String` holding the error message.
-/

/-! ### Model of Go `strconv.Atoi`

`strconv.Atoi(s)` parses `s` in base 10 into a 64-bit `int`.  It returns
both a value and an error: on a syntax error (empty string, stray sign,
non-digit character) the value is `0`; on a range error (the number does
not fit in 64 bits) the value is the clamped extreme
(`math.MaxInt64` / `math.MinInt64`).  Overflow matters here, so the value
is an unbounded `Int` that the model clamps explicitly at the 64-bit
bounds. -/

inductive AtoiErr
  | errSyntax
  | errRange
deriving DecidableEq, Repr

def goMaxInt : Int := 9223372036854775807

def goMinInt : Int := -9223372036854775808

def digitsVal (ds : List Char) : Nat :=
  ds.foldl (fun a c => a * 10 + (c.toNat - 48)) 0

def goAtoiSigned (neg : Bool) (ds : List Char) : Int × Option AtoiErr :=
  if ds.isEmpty || !(ds.all Char.isDigit) then
    (0, some AtoiErr.errSyntax)
  else
    let m : Int := (digitsVal ds : Nat)
    if neg then
      if m > 9223372036854775808 then (goMinInt, some AtoiErr.errRange)
      else (-m, none)
    else
      if m > goMaxInt then (goMaxInt, some AtoiErr.errRange)
      else (m, none)

def goAtoi (s : String) : Int × Option AtoiErr :=
  match s.data with
  | '-' :: ds => goAtoiSigned true ds
  | '+' :: ds => goAtoiSigned false ds
  | ds => goAtoiSigned false ds

/-! ### Opaque Go values

Handlers, panic callbacks and listener functions only matter by identity
here; a `GoFunc` is such an opaque function value, and a nilable Go
function field is an `Option GoFunc`. -/

structure GoFunc where
  id : Nat
deriving DecidableEq, Repr

abbrev H := GoFunc

/-- The de-auth listener registered by `Initialize_Auth` is
`api_ws.CloseAuthdConn`; listeners are identified by this tag. -/
inductive DeAuthListener
  | closeAuthdConn
deriving DecidableEq, Repr

/-! ### Package `auth` (src/auth/initialize.go) -/

/-- `sessions.NewCookieStore([]byte(storeId))` — external collaborator,
modelled by the key it was built from. -/
structure CookieStore where
  storeId : String
deriving DecidableEq, Repr

/-- The package-level variables `_cookieSessName`, `_cookieStoreId`,
`_cookieStore`, `_cookiePath`, `_cookieDomain`, `_cookieMaxAge` of
package `auth`.  The store pointer starts out nil, hence `Option`. -/
structure AuthState where
  cookieSessName : String
  cookieStoreId : String
  cookieStore : Option CookieStore
  cookiePath : String
  cookieDomain : String
  cookieMaxAge : Int
deriving DecidableEq, Repr

namespace auth

/-- `auth.Initialize` from src/auth/initialize.go: validates the cookie
session name, the store id and the max-age string, then assigns the
package-level variables.  Note the Go source assigns
`_cookieMaxAge, err = strconv.Atoi(cookieMaxAge)` before the error check,
so `_cookieMaxAge` receives Atoi's value even on a parse failure. -/
def Initialize (s : AuthState)
    (cookieSessName cookieStoreId cookiePath cookieDomain cookieMaxAge : String) :
    Option String × AuthState :=
  if cookieSessName = "" then
    (some "Auth cannot be configured with empty cookie session name", s)
  else if cookieStoreId = "" then
    (some "Auth cannot be configured with empty cookie store id", s)
  else
    let a := goAtoi cookieMaxAge
    let s1 : AuthState := { s with cookieMaxAge := a.1 }
    if a.2.isSome then
      (some "Auth cannot be configured with cookie maxAge not integer", s1)
    else
      (none, { s1 with
                 cookieSessName := cookieSessName
                 cookieStoreId := cookieStoreId
                 cookieStore := some { storeId := cookieStoreId }
                 cookiePath := cookiePath
                 cookieDomain := cookieDomain })

/-- Modelled from the spec: `auth.AddListener_DeAuth` is code of this
repository that is not under src/ (only its caller in
`api_http.Initialize_Auth` is).  The spec says "Registers a callback; no
de-duplication — the same listener registered twice fires twice", so it
appends to the listener list. -/
def AddListener_DeAuth (listeners : List DeAuthListener) (l : DeAuthListener) :
    List DeAuthListener :=
  listeners ++ [l]

end auth

/-- The zero value of the `auth` package state at process start. -/
def authState0 : AuthState :=
  { cookieSessName := ""
    cookieStoreId := ""
    cookieStore := none
    cookiePath := ""
    cookieDomain := ""
    cookieMaxAge := 0 }

/-! Basic characterization lemmas for `auth.Initialize`, shared by several
claims below. -/

theorem auth_Initialize_fst_none_iff (s : AuthState) (n st p d m : String) :
    (auth.Initialize s n st p d m).1 = none ↔
      n ≠ "" ∧ st ≠ "" ∧ (goAtoi m).2 = none := by
  simp only [auth.Initialize]
  split_ifs with h1 h2 h3 <;>
    simp_all [Option.isSome_iff_ne_none]

theorem auth_Initialize_success_state (s : AuthState) (n st p d m : String)
    (hn : n ≠ "") (hst : st ≠ "") (hm : (goAtoi m).2 = none) :
    auth.Initialize s n st p d m =
      (none,
       { cookieSessName := n
         cookieStoreId := st
         cookieStore := some { storeId := st }
         cookiePath := p
         cookieDomain := d
         cookieMaxAge := (goAtoi m).1 }) := by
  simp only [auth.Initialize]
  split_ifs with h1 h2 h3 <;> simp_all

theorem auth_Initialize_empty_state (s : AuthState) (n st p d m : String)
    (h : n = "" ∨ st = "") :
    (auth.Initialize s n st p d m).2 = s := by
  simp only [auth.Initialize]
  rcases h with h | h <;> split_ifs <;> simp_all

theorem auth_Initialize_parsefail_state (s : AuthState) (n st p d m : String)
    (hn : n ≠ "") (hst : st ≠ "") (hm : (goAtoi m).2.isSome = true) :
    (auth.Initialize s n st p d m).1.isSome = true ∧
      (auth.Initialize s n st p d m).2 = { s with cookieMaxAge := (goAtoi m).1 } := by
  simp only [auth.Initialize]
  split_ifs with h1 h2 h3 <;> simp_all

/-! ### Package `api_ws` (src/unnamed/part_000) -/

/-- The package-level variables `_verGetter` and `_onPanic` of package
`api_ws`. -/
structure WsState where
  verGetter : Option GoFunc
  onPanic : Option GoFunc
deriving DecidableEq, Repr

namespace api_ws

/-- `api_ws.Initialize` from src/unnamed/part_000: requires a version
getter and an OnPanic handler, then assigns the package globals. -/
def Initialize (verGetter onPanic : Option GoFunc) (w : WsState) :
    Option String × WsState :=
  if verGetter.isNone then
    (some "Websocket handler needs Version Getter handler", w)
  else if onPanic.isNone then
    (some "Websocket handler needs OnPanic handler", w)
  else
    (none, { verGetter := verGetter, onPanic := onPanic })

end api_ws

/-! ### External collaborator `reseer.Seer`

`reseer.New` starts a file watcher; the spec treats the version tracker as
an external collaborator whose `Stop()` is idempotent.  A `Seer` is
modelled by its current version text and a stopped flag. -/

structure Seer where
  versionTxt : String
  stopped : Bool
deriving DecidableEq, Repr

def Seer.Stop (s : Seer) : Seer :=
  { s with stopped := true }

/-! ### Package `api_http` (src/api_http/initialize.go): data model -/

/-- The `ctx.Auth` parameters consumed by `Initialize_Auth`. -/
structure AuthParams where
  CookieName : String
  CookieStoreId : String
  CookiePath : String
  CookieDomain : String
  CookieMaxAge : String
deriving DecidableEq, Repr

/-- The `ctx.Dirs` parameters consumed by `Initialize_Dirs`. -/
structure Dirs where
  VersionFileDir : String
  AppWatchNotify : String
deriving DecidableEq, Repr

/-- A websocket route `{URL, Procs}` as ranged over in `Initialize_Router`. -/
structure WSRoute where
  URL : String
  Procs : GoFunc
deriving DecidableEq, Repr

/-- Go's route maps are iterated in `Initialize_Router`; the model fixes an
iteration order by using association lists. -/
structure HandlersHTML where
  Public : List (String × H)
  Authd : List (String × H)
  NotFound : H
deriving DecidableEq, Repr

structure HandlersXHR where
  Public : List (String × H)
  Authd : List (String × H)
deriving DecidableEq, Repr

structure HandlersWS where
  Public : List WSRoute
  Authd : List WSRoute
deriving DecidableEq, Repr

structure HandlersFILE where
  Public : List (String × H)
deriving DecidableEq, Repr

/-- The `Ctx` passed to `api_http.Initialize`.  `OnPanic` is a nilable Go
function. -/
structure Ctx where
  Auth : AuthParams
  Dirs : Dirs
  OnPanic : Option GoFunc
  Handlers_HTML : HandlersHTML
  Handlers_XHR : HandlersXHR
  Handlers_WS : HandlersWS
  Handlers_FILE : HandlersFILE
deriving DecidableEq, Repr

/-- A handler value registered on the router.  The bodies of
`makeHandler_HTML`, `makeHandler_XHR`, `makeHandler_WS` and
`makeHandler_NotFound` are code of this repository not under src/; each is
modelled as an opaque wrapper determined by exactly the arguments the
wrapped closure captures (the underlying handler and the authd flag), as
the spec describes them: transport adapters plus auth wrapper around one
underlying handler. -/
inductive RegisteredHandler
  | html (h : H) (authd : Bool)
  | xhr (h : H) (authd : Bool)
  | ws (r : WSRoute) (authd : Bool)
  | notFound (h : H)
deriving DecidableEq, Repr

/-- A `mux.Router`: an ordered list of pattern registrations plus the
`NotFoundHandler` field.  `HandleFunc` appends a registration. -/
structure Router where
  routes : List (String × RegisteredHandler)
  notFoundHandler : Option RegisteredHandler
deriving DecidableEq, Repr

def Router.handleFunc (rt : Router) (pattern : String) (h : RegisteredHandler) :
    Router :=
  { rt with routes := rt.routes ++ [(pattern, h)] }

/-- Route resolution: first registration whose pattern matches the request
path (modelled as exact pattern match, a restriction of mux's templated
matching that is exact on the literal patterns used here); on no match the
router falls back to its `NotFoundHandler`. -/
def Router.resolve (rt : Router) (p : String) : Option RegisteredHandler :=
  match rt.routes.find? (fun e => e.1 == p) with
  | some e => some e.2
  | none => rt.notFoundHandler

/-- Modelled from the spec: `util.NewSummary` / `util.Summary` are code of
this repository not under src/ (src/unnamed/part_001 holds only the ID
utilities of package `util`).  The spec describes the summary as an
ordered sequence of route entries used purely for diagnostic reporting, so
a summary is its title, its column headers and an ordered list of lines; a
line records the arguments given to `AddLine` (`util.GetFuncInfo(obj)` is
modelled by the opaque handler value itself). -/
inductive SummLine
  | line (descr : String) (route : String) (h : GoFunc)
  | blank
deriving DecidableEq, Repr

structure Summary where
  title : String
  headers : List String
  lines : List SummLine
deriving DecidableEq, Repr

def NewSummary (title : String) (headers : List String) : Summary :=
  { title := title, headers := headers, lines := [] }

def Summary.addLine (s : Summary) (l : SummLine) : Summary :=
  { s with lines := s.lines ++ [l] }

def Summary.addBlankLine (s : Summary) : Summary :=
  s.addLine SummLine.blank

/-- `addSumm` from src/api_http/initialize.go. -/
def addSumm (summ : Summary) (descr route : String) (obj : GoFunc) : Summary :=
  summ.addLine (SummLine.line descr route obj)

/-! ### Package `api_http`: route registration -/

/-- `makeRouteHandlers` from src/api_http/initialize.go.  `routeSynonyms`
is code of this repository not under src/ (only this caller is); per the
spec it is a pure function producing the patterns to register from one
source entry, so it is taken as an explicit parameter.  One
`router.HandleFunc` per synonym, all wrapping the same underlying handler
`h`; a single summary line is added for the base route `r` (the loop
variable shadows `r` only inside the loop). -/
def makeRouteHandlers (routeSynonyms : String → List String) (router : Router)
    (r : String) (h : H) (authd : Bool) (descr : String) (summ : Summary) :
    Router × Summary :=
  ((routeSynonyms r).foldl
     (fun rt r2 => rt.handleFunc r2 (RegisteredHandler.html h authd)) router,
   addSumm summ descr r h)

/-- One summary blank line between groups: `summ.AddBlankLine()`. -/
def blankStep (acc : Router × Summary) : Router × Summary :=
  (acc.1, acc.2.addBlankLine)

/-- The HTML-group loop of `Initialize_Router`: one `makeRouteHandlers`
per map entry. -/
def regHTMLGroup (rs : String → List String) (authd : Bool) (d : String)
    (l : List (String × H)) (acc : Router × Summary) : Router × Summary :=
  l.foldl (fun acc2 rh => makeRouteHandlers rs acc2.1 rh.1 rh.2 authd d acc2.2) acc

/-- The XHR-group loop of `Initialize_Router`: `addSumm` then
`router.HandleFunc(r, makeHandler_XHR(ctx, h, b))` per map entry. -/
def regXHRGroup (b : Bool) (d : String) (l : List (String × H))
    (acc : Router × Summary) : Router × Summary :=
  l.foldl (fun acc2 rh =>
    (acc2.1.handleFunc rh.1 (RegisteredHandler.xhr rh.2 b),
     addSumm acc2.2 d rh.1 rh.2)) acc

/-- The WS-group loop of `Initialize_Router`: `addSumm` then
`router.HandleFunc(wsr.URL, makeHandler_WS(ctx, &wsr, b))` per route. -/
def regWSGroup (b : Bool) (d : String) (l : List WSRoute)
    (acc : Router × Summary) : Router × Summary :=
  l.foldl (fun acc2 wsr =>
    (acc2.1.handleFunc wsr.URL (RegisteredHandler.ws wsr b),
     addSumm acc2.2 d wsr.URL wsr.Procs)) acc

/-- The FILE-group loop of `Initialize_Router`: `addSumm` then
`router.HandleFunc(r, makeHandler_HTML(ctx, h, false))` per map entry
(the source registers FILE routes through the HTML wrapper). -/
def regFILEGroup (d : String) (l : List (String × H))
    (acc : Router × Summary) : Router × Summary :=
  l.foldl (fun acc2 rh =>
    (acc2.1.handleFunc rh.1 (RegisteredHandler.html rh.2 false),
     addSumm acc2.2 d rh.1 rh.2)) acc

/-- `Initialize_Router` from src/api_http/initialize.go, as the pure
computation of the `mux.Router` it builds and the summary it prints.  The
source never assigns a non-nil `err` in this function, so no error
component is modelled.  Groups are processed in the source's order: HTML
Public, HTML Authd, XHR Public, XHR Authd, WS Public, WS Authd, FILE
Public, then the NotFound handler is installed and summarized. -/
def Initialize_Router_pure (routeSynonyms : String → List String) (ctx : Ctx) :
    Router × Summary :=
  let acc0 := (({ routes := [], notFoundHandler := none } : Router),
               NewSummary "Registered HTTP routes" ["Type", "Route", "Handler", "Package"])
  let acc1 := blankStep
    (regHTMLGroup routeSynonyms false "HTML Public" ctx.Handlers_HTML.Public acc0)
  let acc2 := blankStep
    (regHTMLGroup routeSynonyms true "HTML Authd" ctx.Handlers_HTML.Authd acc1)
  let acc3 := blankStep (regXHRGroup false "XHR Public" ctx.Handlers_XHR.Public acc2)
  let acc4 := blankStep (regXHRGroup true "XHR Authd" ctx.Handlers_XHR.Authd acc3)
  let acc5 := blankStep (regWSGroup false "WS Public" ctx.Handlers_WS.Public acc4)
  let acc6 := blankStep (regWSGroup true "WS Authd" ctx.Handlers_WS.Authd acc5)
  let acc7 := blankStep (regFILEGroup "FILE Public" ctx.Handlers_FILE.Public acc6)
  let notFoundH := ctx.Handlers_HTML.NotFound
  ({ acc7.1 with notFoundHandler := some (RegisteredHandler.notFound notFoundH) },
   (addSumm acc7.2 "HTML Not Found" "*" notFoundH).addBlankLine)

/-! ### Package `api_http`: process state and initialization steps -/

/-- The process-wide mutable state touched by `api_http.Initialize` and
the packages it initializes: the `auth` globals, the de-auth listener
registry, the `api_ws` globals, `_versionWatcher`, the app version string,
the stored context `_ctx`, the root HTTP handler registered via
`http.Handle("/", router)` (none until registered) and the summary printed
by `Initialize_Router`. -/
structure World where
  authState : AuthState
  deAuthListeners : List DeAuthListener
  wsState : WsState
  versionWatcher : Option Seer
  appVersion : String
  httpCtx : Ctx
  rootHandler : Option Router
  printedSummary : Option Summary
deriving DecidableEq, Repr

/-- `Initialize_Auth` from src/api_http/initialize.go: checks the cookie
name and store id, calls `auth.Initialize`, then registers
`api_ws.CloseAuthdConn` as a de-auth listener and returns
`auth.Initialize`'s error.  (The source also passes `ctx.OnPanic` as a
trailing argument; src/auth's five-parameter `Initialize` neither declares
nor uses it, so the call is modelled with the five string parameters.) -/
def Initialize_Auth (ctx : Ctx) (w : World) : Option String × World :=
  let params := ctx.Auth
  if params.CookieName = "" then
    (some "Cookie name must be specified", w)
  else if params.CookieStoreId = "" then
    (some "Cookie store ID must be specified", w)
  else
    let r := auth.Initialize w.authState params.CookieName params.CookieStoreId
      params.CookiePath params.CookieDomain params.CookieMaxAge
    (r.1,
     { w with
         authState := r.2
         deAuthListeners :=
           auth.AddListener_DeAuth w.deAuthListeners DeAuthListener.closeAuthdConn })

/-- `Initialize_Dirs` from src/api_http/initialize.go.  `reseer.New` is an
external collaborator; its outcome (the watcher returned and the error) is
supplied as the oracle `reseerNew`.  The source assigns
`_versionWatcher, err = reseer.New(...)` unconditionally, then on success
sets the app version from the watcher. -/
def Initialize_Dirs (reseerNew : Option Seer × Option String) (dirs : Dirs)
    (w : World) : Option String × World :=
  let _ := dirs
  let w1 := { w with versionWatcher := reseerNew.1 }
  match reseerNew.2 with
  | some e => (some e, w1)
  | none =>
      (none,
       { w1 with
           appVersion :=
             match reseerNew.1 with
             | some s => s.versionTxt
             | none => w.appVersion })

namespace reqres

/-- Modelled from the spec: `reqres.Initialize` is code of this repository
not under src/ (only its caller is).  The spec's PanicGuard contract makes
a missing panic handler a fatal `ConfigError`, so it fails exactly when
`onPanic` is nil. -/
def Initialize (onPanic : Option GoFunc) : Option String :=
  if onPanic.isNone then some "ReqRes needs OnPanic handler" else none

end reqres

namespace api_xhr

/-- Modelled from the spec: `api_xhr.Initialize` is code of this
repository not under src/ (only its caller is).  As for `reqres`, the spec
makes a missing panic handler a fatal `ConfigError`. -/
def Initialize (onPanic : Option GoFunc) : Option String :=
  if onPanic.isNone then some "XHR needs OnPanic handler" else none

end api_xhr

/-- `Initialize_ReqRes` from src/api_http/initialize.go. -/
def Initialize_ReqRes (ctx : Ctx) (w : World) : Option String × World :=
  (reqres.Initialize ctx.OnPanic, w)

/-- `Initialize_XHR` from src/api_http/initialize.go. -/
def Initialize_XHR (ctx : Ctx) (w : World) : Option String × World :=
  (api_xhr.Initialize ctx.OnPanic, w)

/-- The function value `api_http.GetVersion` passed to
`api_ws.Initialize`; it is a real (non-nil) function of the package. -/
def GetVersionFn : GoFunc := { id := 1 }

/-- `Initialize_WS` from src/api_http/initialize.go: calls
`api_ws.Initialize(GetVersion, ctx.OnPanic)`. -/
def Initialize_WS (ctx : Ctx) (w : World) : Option String × World :=
  let r := api_ws.Initialize (some GetVersionFn) ctx.OnPanic w.wsState
  (r.1, { w with wsState := r.2 })

/-- `Initialize_Router` as a world transformer: builds the router and the
summary, registers the router as the root HTTP handler
(`http.Handle("/", router)`) and prints the summary.  The source never
assigns a non-nil error here. -/
def Initialize_Router (routeSynonyms : String → List String) (ctx : Ctx)
    (w : World) : Option String × World :=
  let rr := Initialize_Router_pure routeSynonyms ctx
  (none, { w with rootHandler := some rr.1, printedSummary := some rr.2 })

/-- `api_http.Initialize` from src/api_http/initialize.go: runs the
initialization steps in source order, returning at the first error; on
overall success it stores the context in `_ctx`. -/
def Initialize (routeSynonyms : String → List String)
    (reseerNew : Option Seer × Option String) (ctx : Ctx) (w : World) :
    Option String × World :=
  let r1 := Initialize_Auth ctx w
  if r1.1.isSome then r1 else
  let r2 := Initialize_Dirs reseerNew ctx.Dirs r1.2
  if r2.1.isSome then r2 else
  if ctx.OnPanic.isNone then (some "OnPanic handler must be provided", r2.2) else
  let r3 := Initialize_ReqRes ctx r2.2
  if r3.1.isSome then r3 else
  let r4 := Initialize_XHR ctx r3.2
  if r4.1.isSome then r4 else
  let r5 := Initialize_WS ctx r4.2
  if r5.1.isSome then r5 else
  let r6 := Initialize_Router routeSynonyms ctx r5.2
  if r6.1.isSome then r6 else
  (none, { r6.2 with httpCtx := ctx })

/-- `DeInitialize` from src/api_http/initialize.go: stops the version
watcher when one exists, otherwise does nothing. -/
def DeInitialize (w : World) : World :=
  match w.versionWatcher with
  | none => w
  | some s => { w with versionWatcher := some s.Stop }

/-! ### Concrete fixtures used by witnesses and counterexamples -/

/-- Spec-side predicate taken from the claim's words: the string is a
decimal representation of a non-negative integer (digits only). -/
def isNonNegIntString (s : String) : Bool :=
  !s.data.isEmpty && s.data.all Char.isDigit

def rsId : String → List String := fun r => [r]

/-- Synonym table of the spec's scenario: route "/home" has the synonyms
"/" and "/index". -/
def rsHome : String → List String :=
  fun r => if r = "/home" then ["/home", "/", "/index"] else [r]

def ctx0 : Ctx :=
  { Auth := { CookieName := "", CookieStoreId := "", CookiePath := ""
              CookieDomain := "", CookieMaxAge := "" }
    Dirs := { VersionFileDir := "", AppWatchNotify := "" }
    OnPanic := none
    Handlers_HTML := { Public := [], Authd := [], NotFound := { id := 0 } }
    Handlers_XHR := { Public := [], Authd := [] }
    Handlers_WS := { Public := [], Authd := [] }
    Handlers_FILE := { Public := [] } }

def world0 : World :=
  { authState := authState0
    deAuthListeners := []
    wsState := { verGetter := none, onPanic := none }
    versionWatcher := none
    appVersion := ""
    httpCtx := ctx0
    rootHandler := none
    printedSummary := none }

def seer1 : Seer := { versionTxt := "v1", stopped := false }

def ro0 : Option Seer × Option String := (some seer1, none)

def ctxEmptyName : Ctx :=
  { ctx0 with Auth := { CookieName := "", CookieStoreId := "store"
                        CookiePath := "/", CookieDomain := "", CookieMaxAge := "3600" } }

def ctxBadMax : Ctx :=
  { ctx0 with Auth := { CookieName := "sess", CookieStoreId := "abc"
                        CookiePath := "/", CookieDomain := "", CookieMaxAge := "zzz" } }

def authState9 : AuthState :=
  { cookieSessName := "n0", cookieStoreId := "s0", cookieStore := none
    cookiePath := "p0", cookieDomain := "d0", cookieMaxAge := 7 }

/-! ### Claim C1 -/

/-- **C1** counterexample: at cookieName="sess", storeId="abc123",
maxAge="-5" the string "-5" is not a non-negative integer, so the claim
requires failure, yet `auth.Initialize` succeeds — Go's `strconv.Atoi`
accepts negative integers and the code checks only its error. -/
theorem C1_counterexample :
    isNonNegIntString "-5" = false ∧
      (auth.Initialize authState0 "sess" "abc123" "/" "" "-5").1 = none := by
  exact ⟨by decide, by decide⟩

/-- **C1** (corrected): `auth.Initialize` fails exactly when the cookie
session name is empty, the cookie store id is empty, or the max-age string
fails Go integer parsing (malformed syntax or out of 64-bit range); in
particular negative in-range integers are accepted.  On success the
stored cookie configuration equals the given parameters with the max age
parsed to an integer. -/
theorem C1_theorem (s : AuthState) (n st p d m : String) :
    ((auth.Initialize s n st p d m).1 = none ↔
       n ≠ "" ∧ st ≠ "" ∧ (goAtoi m).2 = none) ∧
    ((auth.Initialize s n st p d m).1 = none →
       (auth.Initialize s n st p d m).2 =
         { cookieSessName := n
           cookieStoreId := st
           cookieStore := some { storeId := st }
           cookiePath := p
           cookieDomain := d
           cookieMaxAge := (goAtoi m).1 }) := by
  refine ⟨auth_Initialize_fst_none_iff s n st p d m, fun hok => ?_⟩
  rcases (auth_Initialize_fst_none_iff s n st p d m).mp hok with ⟨hn, hst, hm⟩
  rw [auth_Initialize_success_state s n st p d m hn hst hm]

/-- Witness for C1 at the spec's scenario input. -/
theorem C1_witness :
    (auth.Initialize authState0 "sess" "abc123" "/" "" "3600").1 = none ∧
    (auth.Initialize authState0 "sess" "abc123" "/" "" "3600").2 =
      { cookieSessName := "sess"
        cookieStoreId := "abc123"
        cookieStore := some { storeId := "abc123" }
        cookiePath := "/"
        cookieDomain := ""
        cookieMaxAge := 3600 } := by
  have h := C1_theorem authState0 "sess" "abc123" "/" "" "3600"
  have h1 : (auth.Initialize authState0 "sess" "abc123" "/" "" "3600").1 = none := by
    decide
  exact ⟨h1, (h.2 h1).trans (by decide)⟩

/-! ### Claim C7 -/

/-- `auth.Initialize` applied to a parameter record, for stating
reconfiguration. -/
def auth.InitializeP (s : AuthState) (ap : AuthParams) : Option String × AuthState :=
  auth.Initialize s ap.CookieName ap.CookieStoreId ap.CookiePath ap.CookieDomain
    ap.CookieMaxAge

/-- **C7** (confirmed): reconfiguration is last-write-wins — after two
successful calls with parameters `a` then `b`, the stored configuration
equals what a single successful call with `b` stores. -/
theorem C7_theorem (s0 : AuthState) (a b : AuthParams)
    (ha : (auth.InitializeP s0 a).1 = none)
    (hb : (auth.InitializeP (auth.InitializeP s0 a).2 b).1 = none) :
    (auth.InitializeP (auth.InitializeP s0 a).2 b).2 = (auth.InitializeP s0 b).2 ∧
    (auth.InitializeP s0 b).1 = none := by
  have hb' := hb
  simp only [auth.InitializeP] at ha hb' ⊢
  rcases (auth_Initialize_fst_none_iff _ _ _ _ _ _).mp hb' with ⟨hn, hst, hm⟩
  constructor
  · rw [auth_Initialize_success_state _ _ _ _ _ _ hn hst hm,
      auth_Initialize_success_state _ _ _ _ _ _ hn hst hm]
  · rw [auth_Initialize_success_state _ _ _ _ _ _ hn hst hm]

def apA : AuthParams :=
  { CookieName := "sess", CookieStoreId := "store1", CookiePath := "/p1"
    CookieDomain := "d1", CookieMaxAge := "100" }

def apB : AuthParams :=
  { CookieName := "s2", CookieStoreId := "store2", CookiePath := "/p2"
    CookieDomain := "d2", CookieMaxAge := "-200" }

/-- Witness for C7 at two concrete successful configurations. -/
theorem C7_witness :
    (auth.InitializeP (auth.InitializeP authState0 apA).2 apB).2 =
      (auth.InitializeP authState0 apB).2 := by
  exact (C7_theorem authState0 apA apB (by decide) (by decide)).1

/-! ### Claim C9 -/

/-- **C9** counterexample: at max-age "99999999999999999999" (a range
error for Go's Atoi) `auth.Initialize` fails, yet `_cookieMaxAge` is
overwritten with the clamped value 9223372036854775807, not with 0 as the
claim states. -/
theorem C9_counterexample :
    (auth.Initialize authState9 "sess" "abc" "/" "" "99999999999999999999").1.isSome
        = true ∧
    (auth.Initialize authState9 "sess" "abc" "/" "" "99999999999999999999").2.cookieMaxAge
        = 9223372036854775807 ∧
    (auth.Initialize authState9 "sess" "abc" "/" "" "99999999999999999999").2.cookieMaxAge
        ≠ 0 := by
  exact ⟨by decide, by decide, by decide⟩

/-- **C9** (corrected): on an empty-name or empty-store-id failure every
configuration variable is unchanged; on a max-age parse failure
`_cookieMaxAge` is overwritten with Atoi's returned value — 0 for a
syntax error but the clamped 64-bit extreme for a range error — while the
other variables keep their prior values. -/
theorem C9_theorem (s : AuthState) (n st p d m : String) :
    ((n = "" ∨ st = "") → (auth.Initialize s n st p d m).2 = s) ∧
    (n ≠ "" → st ≠ "" → (goAtoi m).2.isSome = true →
      (auth.Initialize s n st p d m).1.isSome = true ∧
      (auth.Initialize s n st p d m).2 = { s with cookieMaxAge := (goAtoi m).1 }) := by
  exact ⟨auth_Initialize_empty_state s n st p d m,
    fun hn hst hm => auth_Initialize_parsefail_state s n st p d m hn hst hm⟩

/-- Witness for C9: an empty name leaves the state unchanged; a syntax
error overwrites the max age with 0 and nothing else. -/
theorem C9_witness :
    (auth.Initialize authState9 "" "x" "/" "" "abc").2 = authState9 ∧
    (auth.Initialize authState9 "sess" "abc" "/" "" "abc").2 =
      { authState9 with cookieMaxAge := 0 } := by
  refine ⟨(C9_theorem authState9 "" "x" "/" "" "abc").1 (Or.inl rfl), ?_⟩
  have h := (C9_theorem authState9 "sess" "abc" "/" "" "abc").2
    (by decide) (by decide) (by decide)
  exact h.2.trans (by decide)

/-! ### Claim C8 -/

/-- **C8** (confirmed): `DeInitialize` stops the version watcher when one
exists, is a no-op when none exists, and calling it repeatedly is safe
(idempotent); it is a total function, so it never fails. -/
theorem C8_theorem (w : World) :
    (w.versionWatcher = none → DeInitialize w = w) ∧
    (∀ s, w.versionWatcher = some s →
      (DeInitialize w).versionWatcher = some (Seer.Stop s)) ∧
    DeInitialize (DeInitialize w) = DeInitialize w := by
  rcases h : w.versionWatcher with _ | s <;>
    simp [DeInitialize, Seer.Stop, h]

def world8 : World := { world0 with versionWatcher := some seer1 }

/-- Witness for C8 on a world without and a world with a watcher. -/
theorem C8_witness :
    DeInitialize world0 = world0 ∧
    (DeInitialize world8).versionWatcher = some (Seer.Stop seer1) ∧
    DeInitialize (DeInitialize world8) = DeInitialize world8 := by
  exact ⟨(C8_theorem world0).1 (by decide),
    (C8_theorem world8).2.1 seer1 (by decide),
    (C8_theorem world8).2.2⟩

/-! ### Claim C10 -/

/-- **C10** counterexample: with an empty cookie name, `Initialize_Auth`
fails and returns early without touching the de-auth listener registry,
so a failed initialization does not always mutate the registry. -/
theorem C10_counterexample :
    (Initialize_Auth ctxEmptyName world0).1.isSome = true ∧
    (Initialize_Auth ctxEmptyName world0).2.deAuthListeners = [] := by
  exact ⟨by decide, by decide⟩

/-- **C10** (corrected): when the cookie name and store id are both
non-empty, every call to `Initialize_Auth` appends
`api_ws.CloseAuthdConn` to the de-auth listener registry — even when
`auth.Initialize` returns a configuration error — and repeated calls
append repeatedly; but when the cookie name or store id is empty,
`Initialize_Auth` returns early and the registry (and the whole world) is
unchanged. -/
theorem C10_theorem (ctx ctx2 : Ctx) (w w2 : World)
    (h1 : ctx.Auth.CookieName ≠ "") (h2 : ctx.Auth.CookieStoreId ≠ "")
    (h3 : ctx2.Auth.CookieName = "" ∨ ctx2.Auth.CookieStoreId = "") :
    (Initialize_Auth ctx w).2.deAuthListeners =
      w.deAuthListeners ++ [DeAuthListener.closeAuthdConn] ∧
    (Initialize_Auth ctx (Initialize_Auth ctx w).2).2.deAuthListeners =
      w.deAuthListeners ++
        [DeAuthListener.closeAuthdConn, DeAuthListener.closeAuthdConn] ∧
    (Initialize_Auth ctx2 w2).2 = w2 := by
  refine ⟨?_, ?_, ?_⟩
  · simp only [Initialize_Auth]
    split_ifs <;> simp_all [auth.AddListener_DeAuth]
  · simp only [Initialize_Auth]
    split_ifs <;> simp_all [auth.AddListener_DeAuth]
  · simp only [Initialize_Auth]
    rcases h3 with h3 | h3 <;> split_ifs <;> simp_all

/-- Witness for C10: an unparsable max age still appends the listener on
each of two calls although `auth.Initialize` errors; an empty cookie name
leaves the world unchanged. -/
theorem C10_witness :
    (Initialize_Auth ctxBadMax world0).1.isSome = true ∧
    (Initialize_Auth ctxBadMax world0).2.deAuthListeners =
      [DeAuthListener.closeAuthdConn] ∧
    (Initialize_Auth ctxBadMax (Initialize_Auth ctxBadMax world0).2).2.deAuthListeners =
      [DeAuthListener.closeAuthdConn, DeAuthListener.closeAuthdConn] ∧
    (Initialize_Auth ctxEmptyName world0).2 = world0 := by
  have h := C10_theorem ctxBadMax ctxEmptyName world0 world0
    (by decide) (by decide) (Or.inl (by decide))
  exact ⟨by decide, h.1.trans (by decide), h.2.1.trans (by decide), h.2.2⟩

/-! ### Step lemmas for `api_http.Initialize` -/

theorem Initialize_Dirs_fst (ro : Option Seer × Option String) (d : Dirs)
    (w : World) : (Initialize_Dirs ro d w).1 = ro.2 := by
  simp only [Initialize_Dirs]
  rcases h : ro.2 with _ | e <;> simp [h]

theorem Initialize_Auth_preserves (ctx : Ctx) (w : World) :
    (Initialize_Auth ctx w).2.rootHandler = w.rootHandler ∧
    (Initialize_Auth ctx w).2.httpCtx = w.httpCtx ∧
    (Initialize_Auth ctx w).2.printedSummary = w.printedSummary := by
  simp only [Initialize_Auth]
  split_ifs <;> simp

theorem Initialize_Dirs_preserves (ro : Option Seer × Option String) (d : Dirs)
    (w : World) :
    (Initialize_Dirs ro d w).2.rootHandler = w.rootHandler ∧
    (Initialize_Dirs ro d w).2.httpCtx = w.httpCtx ∧
    (Initialize_Dirs ro d w).2.printedSummary = w.printedSummary := by
  simp only [Initialize_Dirs]
  rcases h : ro.2 with _ | e <;> simp [h]

theorem Initialize_WS_preserves (ctx : Ctx) (w : World) :
    (Initialize_WS ctx w).2.rootHandler = w.rootHandler ∧
    (Initialize_WS ctx w).2.httpCtx = w.httpCtx ∧
    (Initialize_WS ctx w).2.printedSummary = w.printedSummary := by
  simp [Initialize_WS]

/-! ### Claim C2 -/

/-- **C2** counterexample: a ctx with nil OnPanic but also an empty
cookie name fails with the cookie-name error from `Initialize_Auth`, not
with "OnPanic handler must be provided" — the OnPanic check runs only
after the auth and dirs steps. -/
theorem C2_counterexample :
    ctxEmptyName.OnPanic = none ∧
    (Initialize rsId ro0 ctxEmptyName world0).1 = some "Cookie name must be specified" ∧
    (Initialize rsId ro0 ctxEmptyName world0).1 ≠ some "OnPanic handler must be provided" := by
  exact ⟨rfl, by decide, by decide⟩

/-- **C2** (corrected): when `ctx.OnPanic` is nil, `api_http.Initialize`
always fails with some error; it returns exactly "OnPanic handler must be
provided" when the earlier auth and dirs steps succeed.  And
`api_ws.Initialize` with a nil onPanic argument always returns an
error. -/
theorem C2_theorem (rs : String → List String) (ro : Option Seer × Option String)
    (ctx : Ctx) (w : World) (hP : ctx.OnPanic = none) :
    (Initialize rs ro ctx w).1.isSome = true ∧
    ((Initialize_Auth ctx w).1 = none → ro.2 = none →
      (Initialize rs ro ctx w).1 = some "OnPanic handler must be provided") ∧
    (∀ vg ws, (api_ws.Initialize vg none ws).1.isSome = true) := by
  refine ⟨?_, ?_, ?_⟩
  · simp only [Initialize]
    split_ifs with h1 h2 h3 <;> simp_all
  · intro hA hD
    simp only [Initialize, hA, Initialize_Dirs_fst, hD, hP]
    simp
  · intro vg ws
    rcases vg with _ | g <;> simp [api_ws.Initialize]

/-- Witness for C2 at a ctx with valid cookie parameters but nil
OnPanic. -/
theorem C2_witness :
    (Initialize rsId ro0
        { ctx0 with Auth := { CookieName := "sess", CookieStoreId := "abc123"
                              CookiePath := "/", CookieDomain := ""
                              CookieMaxAge := "3600" } } world0).1 =
      some "OnPanic handler must be provided" := by
  exact (C2_theorem rsId ro0 _ world0 rfl).2.1 (by decide) rfl

/-! ### Claim C3 -/

/-- **C3** (confirmed): whenever `api_http.Initialize` returns an error,
the root HTTP listener is not registered, the summary is not printed, and
the stored process context `_ctx` is unchanged — the later steps were
skipped. -/
theorem C3_theorem (rs : String → List String) (ro : Option Seer × Option String)
    (ctx : Ctx) (w : World) (h : (Initialize rs ro ctx w).1.isSome = true) :
    (Initialize rs ro ctx w).2.rootHandler = w.rootHandler ∧
    (Initialize rs ro ctx w).2.httpCtx = w.httpCtx ∧
    (Initialize rs ro ctx w).2.printedSummary = w.printedSummary := by
  have pA := Initialize_Auth_preserves ctx w
  have pD := Initialize_Dirs_preserves ro ctx.Dirs (Initialize_Auth ctx w).2
  have pW := Initialize_WS_preserves ctx
    (Initialize_Dirs ro ctx.Dirs (Initialize_Auth ctx w).2).2
  simp only [Initialize] at h ⊢
  split_ifs at h ⊢ with h1 h2 h3 h4 h5 h6 h7 <;>
    simp_all [Initialize_ReqRes, Initialize_XHR, Initialize_Router]

/-- Witness for C3: a failing ctx (empty cookie name) leaves the listener
unregistered, the summary unprinted and `_ctx` at its zero value. -/
theorem C3_witness :
    (Initialize rsId ro0 ctxEmptyName world0).2.rootHandler = none ∧
    (Initialize rsId ro0 ctxEmptyName world0).2.httpCtx = ctx0 ∧
    (Initialize rsId ro0 ctxEmptyName world0).2.printedSummary = none := by
  have h := C3_theorem rsId ro0 ctxEmptyName world0 (by decide)
  exact ⟨h.1.trans (by decide), h.2.1.trans (by decide), h.2.2.trans (by decide)⟩

/-! ### Router fold lemmas -/

theorem foldl_handleFunc_routes (hh : RegisteredHandler) (l : List String) :
    ∀ rt : Router,
      (l.foldl (fun rt2 p => rt2.handleFunc p hh) rt).routes =
        rt.routes ++ l.map (fun p => (p, hh)) := by
  induction l with
  | nil => intro rt; simp
  | cons q t ih =>
      intro rt
      rw [List.foldl_cons, ih]
      simp [Router.handleFunc, List.append_assoc]

theorem find?_map_const_snd (hh : RegisteredHandler) (p : String)
    (l : List String) (hp : p ∈ l) :
    (l.map (fun q => (q, hh))).find? (fun e => e.1 == p) = some (p, hh) := by
  induction l with
  | nil => simp at hp
  | cons q t ih =>
      by_cases hq : q = p
      · subst hq
        simp [List.find?_cons]
      · rcases List.mem_cons.mp hp with h1 | h2
        · exact absurd h1.symm hq
        · simp [List.find?_cons, hq, ih h2]

theorem foldl_pair_lines {α : Type} (step : Router × Summary → α → Router × Summary)
    (emit : α → SummLine)
    (hstep : ∀ acc x, (step acc x).2.lines = acc.2.lines ++ [emit x])
    (l : List α) :
    ∀ acc : Router × Summary,
      (l.foldl step acc).2.lines = acc.2.lines ++ l.map emit := by
  induction l with
  | nil => intro acc; simp
  | cons x t ih =>
      intro acc
      rw [List.foldl_cons, ih, hstep, List.map_cons, List.append_assoc]
      rfl

theorem lines_blankStep (acc : Router × Summary) :
    (blankStep acc).2.lines = acc.2.lines ++ [SummLine.blank] := by
  simp [blankStep, Summary.addBlankLine, Summary.addLine]

theorem lines_regHTMLGroup (rs : String → List String) (authd : Bool) (d : String)
    (l : List (String × H)) (acc : Router × Summary) :
    (regHTMLGroup rs authd d l acc).2.lines =
      acc.2.lines ++ l.map (fun rh => SummLine.line d rh.1 rh.2) := by
  exact foldl_pair_lines _ _
    (fun acc2 x => by simp [makeRouteHandlers, addSumm, Summary.addLine]) l acc

theorem lines_regXHRGroup (b : Bool) (d : String) (l : List (String × H))
    (acc : Router × Summary) :
    (regXHRGroup b d l acc).2.lines =
      acc.2.lines ++ l.map (fun rh => SummLine.line d rh.1 rh.2) := by
  exact foldl_pair_lines _ _
    (fun acc2 x => by simp [addSumm, Summary.addLine]) l acc

theorem lines_regWSGroup (b : Bool) (d : String) (l : List WSRoute)
    (acc : Router × Summary) :
    (regWSGroup b d l acc).2.lines =
      acc.2.lines ++ l.map (fun wsr => SummLine.line d wsr.URL wsr.Procs) := by
  exact foldl_pair_lines _ _
    (fun acc2 x => by simp [addSumm, Summary.addLine]) l acc

theorem lines_regFILEGroup (d : String) (l : List (String × H))
    (acc : Router × Summary) :
    (regFILEGroup d l acc).2.lines =
      acc.2.lines ++ l.map (fun rh => SummLine.line d rh.1 rh.2) := by
  exact foldl_pair_lines _ _
    (fun acc2 x => by simp [addSumm, Summary.addLine]) l acc

/-! ### Claim C4 -/

/-- **C4** (confirmed): `makeRouteHandlers` adds one registration per
pattern in `routeSynonyms r`, each bound to the same wrapper of the same
underlying handler `h`; consequently, on a fresh router, resolving any
synonym pattern yields the same handler identity. -/
theorem C4_theorem (rs : String → List String) (router : Router) (r : String)
    (h : H) (authd : Bool) (descr : String) (summ : Summary) :
    (makeRouteHandlers rs router r h authd descr summ).1.routes =
      router.routes ++ (rs r).map (fun p => (p, RegisteredHandler.html h authd)) ∧
    (∀ p, p ∈ rs r →
      (makeRouteHandlers rs { routes := [], notFoundHandler := none } r h authd
          descr summ).1.resolve p = some (RegisteredHandler.html h authd)) := by
  constructor
  · simp [makeRouteHandlers, foldl_handleFunc_routes]
  · intro p hp
    simp [makeRouteHandlers, Router.resolve, foldl_handleFunc_routes,
      find?_map_const_snd _ p _ hp]

def hHome : H := { id := 7 }

def summ0 : Summary := NewSummary "t" []

/-- Witness for C4 at the spec's scenario: "/home" with synonyms "/" and
"/index" all resolve to the same handler. -/
theorem C4_witness :
    (makeRouteHandlers rsHome { routes := [], notFoundHandler := none } "/home"
        hHome false "HTML Public" summ0).1.resolve "/home" =
      some (RegisteredHandler.html hHome false) ∧
    (makeRouteHandlers rsHome { routes := [], notFoundHandler := none } "/home"
        hHome false "HTML Public" summ0).1.resolve "/" =
      some (RegisteredHandler.html hHome false) ∧
    (makeRouteHandlers rsHome { routes := [], notFoundHandler := none } "/home"
        hHome false "HTML Public" summ0).1.resolve "/index" =
      some (RegisteredHandler.html hHome false) := by
  have h := C4_theorem rsHome { routes := [], notFoundHandler := none } "/home"
    hHome false "HTML Public" summ0
  exact ⟨h.2 "/home" (by decide), h.2 "/" (by decide), h.2 "/index" (by decide)⟩

/-! ### Claim C5 -/

def ctxHome : Ctx :=
  { ctx0 with Handlers_HTML :=
      { Public := [("/home", hHome)], Authd := [], NotFound := { id := 0 } } }

/-- **C5** counterexample: registering HTML route "/home" whose synonyms
are "/" and "/index" puts "/" into the router's registered routes, yet no
summary line carries the route "/": `makeRouteHandlers` adds a single
summary line for the base route only, so the summary does not contain an
entry for every registered route. -/
theorem C5_counterexample :
    ((Initialize_Router_pure rsHome ctxHome).1.routes.any (fun e => e.1 == "/")) = true ∧
    ((Initialize_Router_pure rsHome ctxHome).2.lines.any
       (fun l => match l with
         | SummLine.line _ route _ => route == "/"
         | SummLine.blank => false)) = false := by
  exact ⟨by decide, by decide⟩

/-- **C5** (corrected): the summary built (and printed once) by
`Initialize_Router` contains exactly one entry per configured route entry
— synonym-expanded registrations share their base route's single line —
grouped in the fixed order HTML Public, HTML Authd, XHR Public, XHR
Authd, WS Public, WS Authd, FILE Public, HTML Not Found, with the
iteration (insertion) order preserved within each group. -/
theorem C5_theorem (rs : String → List String) (ctx : Ctx) :
    (Initialize_Router_pure rs ctx).2.lines =
      ctx.Handlers_HTML.Public.map (fun rh => SummLine.line "HTML Public" rh.1 rh.2)
        ++ [SummLine.blank]
        ++ ctx.Handlers_HTML.Authd.map (fun rh => SummLine.line "HTML Authd" rh.1 rh.2)
        ++ [SummLine.blank]
        ++ ctx.Handlers_XHR.Public.map (fun rh => SummLine.line "XHR Public" rh.1 rh.2)
        ++ [SummLine.blank]
        ++ ctx.Handlers_XHR.Authd.map (fun rh => SummLine.line "XHR Authd" rh.1 rh.2)
        ++ [SummLine.blank]
        ++ ctx.Handlers_WS.Public.map
             (fun wsr => SummLine.line "WS Public" wsr.URL wsr.Procs)
        ++ [SummLine.blank]
        ++ ctx.Handlers_WS.Authd.map
             (fun wsr => SummLine.line "WS Authd" wsr.URL wsr.Procs)
        ++ [SummLine.blank]
        ++ ctx.Handlers_FILE.Public.map (fun rh => SummLine.line "FILE Public" rh.1 rh.2)
        ++ [SummLine.blank]
        ++ [SummLine.line "HTML Not Found" "*" ctx.Handlers_HTML.NotFound, SummLine.blank] := by
  simp only [Initialize_Router_pure, addSumm, Summary.addBlankLine, Summary.addLine,
    lines_blankStep, lines_regHTMLGroup, lines_regXHRGroup, lines_regWSGroup,
    lines_regFILEGroup, NewSummary]
  simp [List.append_assoc]

/-! ### Claim C6 -/

/-- **C6** (confirmed): `Initialize_Router` sets the router's
`NotFoundHandler` to the guarded wrapper of `ctx.Handlers_HTML.NotFound`,
and resolving any path that matches no registered route returns that
handler rather than failing. -/
theorem C6_theorem (rs : String → List String) (ctx : Ctx) (p : String)
    (h : ∀ e ∈ (Initialize_Router_pure rs ctx).1.routes, e.1 ≠ p) :
    (Initialize_Router_pure rs ctx).1.notFoundHandler =
      some (RegisteredHandler.notFound ctx.Handlers_HTML.NotFound) ∧
    (Initialize_Router_pure rs ctx).1.resolve p =
      some (RegisteredHandler.notFound ctx.Handlers_HTML.NotFound) := by
  have hnf : (Initialize_Router_pure rs ctx).1.notFoundHandler =
      some (RegisteredHandler.notFound ctx.Handlers_HTML.NotFound) := rfl
  have hfind : (Initialize_Router_pure rs ctx).1.routes.find? (fun e => e.1 == p)
      = none := by
    apply List.find?_eq_none.mpr
    intro x hx
    simpa using h x hx
  refine ⟨hnf, ?_⟩
  simp [Router.resolve, hfind, hnf]

/-- Witness for C6: on a ctx with no routes every path resolves to the
NotFound wrapper. -/
theorem C6_witness :
    (Initialize_Router_pure rsId ctx0).1.resolve "/nope" =
      some (RegisteredHandler.notFound ctx0.Handlers_HTML.NotFound) := by
  exact (C6_theorem rsId ctx0 "/nope" (by decide)).2
